import Mathlib

/-!
Verification development for the artist controller of a multi-provider
music library (`music_assistant/controllers/music/artists.py`).

The Python source is shallowly embedded: Python `set` fields become
`Finset`, the insertion-ordered `dict` used for deduplication becomes an
association list, database rows become a `List` of records, and the async
collaborators of the match engine (provider searches, listings, full-item
fetches) become explicit function-valued fields of an environment record.
-/

set_option autoImplicit false

namespace MusicAssistant

/-- Provider types (`music_assistant.models.enums.ProviderType`); the
concrete variants are irrelevant to the properties proved here, only that
they form a decidable type with a distinguished `database` member. -/
inductive ProviderType where
  | database
  | spotify
  | qobuz
  | tunein
  | filesystem
  deriving DecidableEq, Repr

/-- One provider mapping: `(prov_type, prov_id, item_id)` — a provider
type, a provider instance id and the item id on that provider
(`MediaItemProviderId` in the source models). -/
structure ProvId where
  prov_type : ProviderType
  prov_id : String
  item_id : String
  deriving DecidableEq, Repr

/-- Open-ended key/value metadata payload, modelled as an association list
with first-match lookup. -/
abbrev Metadata : Type := List (String × String)

/-- First-match lookup in a metadata payload. -/
def Metadata.lookup (m : Metadata) (k : String) : Option String :=
  match m with
  | [] => none
  | (k', v) :: rest => if k' = k then some v else Metadata.lookup rest k

/-- Modelled from the spec: the metadata `update` method of the media-item
models (the models module is not part of the sources here).  Per the spec,
`overwrite=false` merges metadata key-by-key with incoming values
overriding existing values on conflicting keys and non-conflicting
existing keys preserved; with first-match lookup this is realised by
prepending the incoming entries. -/
def Metadata.update (cur incoming : Metadata) : Metadata :=
  incoming ++ cur

/-- A lightweight reference to an artist (used for a track's credited
artists and an album's artist back-reference). -/
structure ItemRef where
  item_id : String
  provider : ProviderType
  name : String
  sort_name : String
  deriving DecidableEq, Repr

/-- A track as returned by a provider listing or search
(`music_assistant.models.media_items.Track`, restricted to the fields the
controller reads). `album_is_mapping` records whether `track.album` is an
`ItemMapping` that `_match` must resolve to a full record. -/
structure Track where
  item_id : String
  provider : ProviderType
  name : String
  sort_name : String
  version : String
  provider_ids : Finset ProvId
  metadata : Metadata
  album_is_mapping : Bool
  artists : List ItemRef
  deriving DecidableEq

/-- Album types (`music_assistant.models.media_items.AlbumType`). -/
inductive AlbumType where
  | album
  | single
  | compilation
  | unknown
  deriving DecidableEq, Repr

/-- An album as returned by a provider listing or search
(`music_assistant.models.media_items.Album`, restricted to the fields the
controller reads). -/
structure Album where
  item_id : String
  provider : ProviderType
  name : String
  sort_name : String
  version : String
  provider_ids : Finset ProvId
  metadata : Metadata
  in_library : Bool
  album_type : AlbumType
  artist : Option ItemRef
  deriving DecidableEq

/-- An artist record (`music_assistant.models.media_items.Artist`,
restricted to the fields the controller reads and writes).  For database
rows `item_id` is the integer primary key. -/
structure Artist where
  item_id : Nat
  provider : ProviderType
  name : String
  sort_name : String
  musicbrainz_id : Option String
  metadata : Metadata
  provider_ids : Finset ProvId
  in_library : Bool
  deriving DecidableEq

/-! ### Aggregation (`toptracks` / `albums`, artists.py lines 46-54 and 70-80)

The Python code merges the chained per-provider results with an
insertion-ordered `dict` keyed by `f".{item.name}.{item.version}"`; here
the dict is an association list over `String` keys. -/

/-- The merge key `f".{track.name}.{track.version}"` of the `toptracks`
deduplication dict. -/
def trackKey (t : Track) : String :=
  "." ++ t.name ++ "." ++ t.version

/-- The merge key `f".{album.name}.{album.version}"` of the `albums`
deduplication dict. -/
def albumKey (a : Album) : String :=
  "." ++ a.name ++ "." ++ a.version

/-- First-match lookup in an association list (the `key in final_items` /
`final_items[key]` reads of the Python dict). -/
def alookup {α : Type} (acc : List (String × α)) (k : String) : Option α :=
  match acc with
  | [] => none
  | (k', v) :: rest => if k' = k then some v else alookup rest k

/-- Update the first entry holding key `k` (the `final_items[key].field = …`
in-place mutations of the Python dict). -/
def aupdate {α : Type} (acc : List (String × α)) (k : String) (f : α → α) :
    List (String × α) :=
  match acc with
  | [] => []
  | (k', v) :: rest =>
    if k' = k then (k', f v) :: rest else (k', v) :: aupdate rest k f

/-- One iteration of the `for track in tracks` merge loop of `toptracks`:
on a key collision the existing entry's `provider_ids` set is updated with
the incoming track's, otherwise the track is inserted at the end. -/
def mergeTracksStep (acc : List (String × Track)) (track : Track) :
    List (String × Track) :=
  match alookup acc (trackKey track) with
  | some _ =>
    aupdate acc (trackKey track)
      (fun cur => { cur with provider_ids := cur.provider_ids ∪ track.provider_ids })
  | none => acc ++ [(trackKey track, track)]

/-- The merge loop of `toptracks` followed by `list(final_items.values())`. -/
def toptracksMerge (tracks : List Track) : List Track :=
  (tracks.foldl mergeTracksStep []).map Prod.snd

/-- The `if key in final_items … else …` part of one iteration of the
`for album in albums` merge loop of `albums`: on a key collision the
existing entry's `provider_ids` set is updated with the incoming album's,
otherwise the album is inserted at the end. -/
def mergeAlbumsBase (acc : List (String × Album)) (album : Album) :
    List (String × Album) :=
  match alookup acc (albumKey album) with
  | some _ =>
    aupdate acc (albumKey album)
      (fun cur => { cur with provider_ids := cur.provider_ids ∪ album.provider_ids })
  | none => acc ++ [(albumKey album, album)]

/-- One iteration of the `for album in albums` merge loop of `albums`:
the collision-or-insert step, then `if album.in_library:
final_items[key].in_library = True` makes library membership sticky. -/
def mergeAlbumsStep (acc : List (String × Album)) (album : Album) :
    List (String × Album) :=
  if album.in_library then
    aupdate (mergeAlbumsBase acc album) (albumKey album)
      (fun cur => { cur with in_library := true })
  else
    mergeAlbumsBase acc album

/-- The merge loop of `albums` followed by `list(final_items.values())`. -/
def albumsMerge (albums : List Album) : List Album :=
  (albums.foldl mergeAlbumsStep []).map Prod.snd

/-! ### Repository (`add_db_item` / `update_db_item`, artists.py lines 154-236)

The artists table becomes a list of `Artist` records addressed by their
integer `item_id`. -/

/-- The database table of artist rows. -/
abbrev DB : Type := List Artist

/-- Python truthiness of an `Optional[str]`: `None` and the empty string
are falsy (this is how `if item.musicbrainz_id:` and
`item.musicbrainz_id or cur_item.musicbrainz_id` treat the field). -/
def mbTruthy (o : Option String) : Bool :=
  match o with
  | some s => !s.isEmpty
  | none => false

/-- Python `a or b` on `Optional[str]` values. -/
def pyOrStr (a b : Option String) : Option String :=
  if mbTruthy a then a else b

/-- `get_db_item`: fetch the row with the given `item_id`. -/
def get_db_item (db : DB) (id : Nat) : Option Artist :=
  db.find? (fun a => a.item_id == id)

/-- Replace the row with the given `item_id` (the repository UPDATE). -/
def db_update (db : DB) (id : Nat) (a : Artist) : DB :=
  db.map (fun x => if x.item_id == id then a else x)

/-- The row written by `update_db_item` (artists.py lines 209-228): with
`overwrite` the incoming metadata and provider ids replace the stored
ones and the incoming name/sort name win; without it metadata is merged,
provider ids are unioned and the existing name/sort name are kept.  The
musicbrainz id is `item.musicbrainz_id or cur_item.musicbrainz_id` in
both modes. -/
def updatedArtist (cur item : Artist) (overwrite : Bool) : Artist :=
  { cur with
    name := if overwrite then item.name else cur.name
    sort_name := if overwrite then item.sort_name else cur.sort_name
    musicbrainz_id := pyOrStr item.musicbrainz_id cur.musicbrainz_id
    metadata :=
      if overwrite then item.metadata else Metadata.update cur.metadata item.metadata
    provider_ids :=
      if overwrite then item.provider_ids else cur.provider_ids ∪ item.provider_ids }

/-- `update_db_item`: look the current row up, compute the merged or
overwritten row, persist it, and return the refreshed record (`none` when
the id is unknown, where the Python code would fail on the missing row). -/
def update_db_item (db : DB) (item_id : Nat) (item : Artist) (overwrite : Bool) :
    Option (DB × Artist) :=
  match get_db_item db item_id with
  | none => none
  | some cur =>
    let row := updatedArtist cur item overwrite
    some (db_update db item_id row, row)

/-- The existing-record lookup of `add_db_item` (artists.py lines 160-178):
first by musicbrainz id when the incoming item carries a truthy one, then
a scan of the rows whose `sort_name` column matches, re-checking
`row_artist.sort_name == item.sort_name` and taking the first hit. -/
def find_cur_item (db : DB) (item : Artist) : Option Artist :=
  let byMb :=
    if mbTruthy item.musicbrainz_id then
      db.find? (fun r => r.musicbrainz_id == item.musicbrainz_id)
    else none
  match byMb with
  | some c => some c
  | none =>
    (db.filter (fun r => r.sort_name == item.sort_name)).find?
      (fun r => r.sort_name == item.sort_name)

/-- Outcome of `add_db_item`: the table afterwards, the returned record,
and whether a `MEDIA_ITEM_ADDED` event was signalled (which happens only
on the insert path). -/
structure AddResult where
  db : DB
  item : Artist
  created : Bool
  deriving DecidableEq

/-- `add_db_item` (artists.py lines 154-198): merge into an existing row
found by musicbrainz id or sort name via `update_db_item`, else insert a
new row (given the fresh primary key `next_id`) and signal the creation
event. -/
def add_db_item (db : DB) (item : Artist) (overwrite_existing : Bool)
    (next_id : Nat) : AddResult :=
  match find_cur_item db item with
  | some c =>
    match update_db_item db c.item_id item overwrite_existing with
    | some (db', a') => ⟨db', a', false⟩
    | none => ⟨db, item, false⟩
  | none =>
    let ni := { item with item_id := next_id }
    ⟨db ++ [ni], ni, true⟩

/-! ### Match engine (`_match`, artists.py lines 254-322)

`_match` consults external collaborators: the aggregated top tracks and
albums of the database artist, the full-track resolution for tracks whose
album is only an `ItemMapping`, the candidate provider's track and album
searches, and the full provider-artist fetch.  These become fields of a
`MatchEnv`; the two phases walk them in source order and the first
confirmed artist wins. -/

/-- Environment of `_match` for one database artist and one candidate
provider. -/
structure MatchEnv where
  toptracks : List Track
  albums : List Album
  fullTrack : Track → Track
  searchTracks : String → List Track
  searchAlbums : String → List Album
  getProviderArtist : String → ProviderType → Artist

/-- The track-phase search strings, in source order:
`f"{db_artist.name} - {ref_track.name}"`, `f"{db_artist.name} {ref_track.name}"`,
`ref_track.name`. -/
def trackSearchStrings (artistName trackName : String) : List String :=
  [artistName ++ " - " ++ trackName, artistName ++ " " ++ trackName, trackName]

/-- The album-phase search strings, in source order: `ref_album.name`,
`f"{db_artist.name} - {ref_album.name}"`, `f"{db_artist.name} {ref_album.name}"`. -/
def albumSearchStrings (artistName albumName : String) : List String :=
  [albumName, artistName ++ " - " ++ albumName, artistName ++ " " ++ albumName]

/-- Track phase of `_match` (artists.py lines 260-287): for each reference
top track (resolved to a full track when its album is an `ItemMapping`),
for each search string, for each search result with the reference track's
sort name, the first credited artist whose sort name equals the database
artist's confirms the match. -/
def trackPhaseFind (env : MatchEnv) (db_artist : Artist) : Option ItemRef :=
  env.toptracks.findSome? (fun rt0 =>
    let rt := if rt0.album_is_mapping then env.fullTrack rt0 else rt0
    (trackSearchStrings db_artist.name rt.name).findSome? (fun s =>
      (env.searchTracks s).findSome? (fun res =>
        if res.sort_name == rt.sort_name then
          res.artists.find? (fun a => a.sort_name == db_artist.sort_name)
        else none)))

/-- The per-search-result check of the album phase (artists.py lines
303-313): the result must have an artist, its sort name must equal the
reference album's, and the result's artist's sort name must equal the
reference album's artist's sort name. -/
def albumResultCheck (ref_album res : Album) : Option ItemRef :=
  match res.artist, ref_album.artist with
  | some resArtist, some refArtist =>
    if res.sort_name == ref_album.sort_name &&
        resArtist.sort_name == refArtist.sort_name then
      some resArtist
    else none
  | _, _ => none

/-- Album phase of `_match` (artists.py lines 288-321): reference albums
that are compilations or lack an artist are skipped; for each search
string and each search result, `albumResultCheck` decides confirmation. -/
def albumPhaseFind (env : MatchEnv) (db_artist : Artist) : Option ItemRef :=
  env.albums.findSome? (fun al =>
    if al.album_type == AlbumType.compilation then none
    else if al.artist == none then none
    else
      (albumSearchStrings db_artist.name al.name).findSome? (fun s =>
        (env.searchAlbums s).findSome? (fun res => albumResultCheck al res)))

/-- The `update_db_item(db_artist.item_id, prov_artist)` persistence of a
confirmed match: an additive merge (`overwrite` defaults to `False`). -/
def persistMerge (db : DB) (id : Nat) (item : Artist) : DB :=
  match update_db_item db id item false with
  | some (db', _) => db'
  | none => db

/-- `_match` (artists.py lines 254-322) as a function from the environment
and the current table to the returned flag and the table afterwards: the
first confirmation of the track phase, else of the album phase, fetches
the full provider artist, merges it into the database row and returns
`True`; with no confirmation the function returns `False` and performs no
update. -/
def matchArtist (env : MatchEnv) (db : DB) (db_artist : Artist) : Bool × DB :=
  match trackPhaseFind env db_artist with
  | some found =>
    (true, persistMerge db db_artist.item_id
      (env.getProviderArtist found.item_id found.provider))
  | none =>
    match albumPhaseFind env db_artist with
    | some found =>
      (true, persistMerge db db_artist.item_id
        (env.getProviderArtist found.item_id found.provider))
    | none => (false, db)

/-! ### Concrete instances used to exercise the theorems -/

/-- A spotify provider mapping. -/
def pSpot : ProvId :=
  ⟨ProviderType.spotify, "spotify1", "sp-artist-1"⟩

/-- A qobuz provider mapping. -/
def pQobuz : ProvId :=
  ⟨ProviderType.qobuz, "qobuz1", "qb-artist-9"⟩

/-- A stored database artist row. -/
def artistA : Artist :=
  { item_id := 1
    provider := ProviderType.database
    name := "Queen"
    sort_name := "queen"
    musicbrainz_id := some "mb-a"
    metadata := [("genre", "rock")]
    provider_ids := {pSpot}
    in_library := true }

/-- An incoming artist carrying a different display name, sort name,
musicbrainz id and metadata than `artistA`. -/
def artistB : Artist :=
  { item_id := 0
    provider := ProviderType.qobuz
    name := "Queen (remastered)"
    sort_name := "queen remastered"
    musicbrainz_id := some "mb-b"
    metadata := [("genre", "glam rock"), ("born", "1970")]
    provider_ids := {pQobuz}
    in_library := false }

/-- An incoming artist with the same musicbrainz id as `artistA` but a
different sort name. -/
def artistC : Artist :=
  { item_id := 0
    provider := ProviderType.qobuz
    name := "The Queen"
    sort_name := "queen, the"
    musicbrainz_id := some "mb-a"
    metadata := []
    provider_ids := {pQobuz}
    in_library := false }

/-- A provider track result. -/
def trackW1 : Track :=
  { item_id := "sp-t1"
    provider := ProviderType.spotify
    name := "Life On Mars?"
    sort_name := "life on mars"
    version := ""
    provider_ids := {pSpot}
    metadata := []
    album_is_mapping := false
    artists := [] }

/-- A second provider track result colliding with `trackW1` on the merge
key while its sort name differs. -/
def trackW2 : Track :=
  { item_id := "qb-t7"
    provider := ProviderType.qobuz
    name := "Life On Mars?"
    sort_name := "life on mars?"
    version := ""
    provider_ids := {pQobuz}
    metadata := [("x", "y")]
    album_is_mapping := true
    artists := [] }

/-- A track result agreeing with `trackW1` on sort name and version but
spelled differently in the display name. -/
def trackW3 : Track :=
  { item_id := "qb-t8"
    provider := ProviderType.qobuz
    name := "Life on Mars?"
    sort_name := "life on mars"
    version := ""
    provider_ids := {pQobuz}
    metadata := []
    album_is_mapping := false
    artists := [] }

/-- A provider album result that is in the library. -/
def albumW1 : Album :=
  { item_id := "sp-a1"
    provider := ProviderType.spotify
    name := "Hunky Dory"
    sort_name := "hunky dory"
    version := ""
    provider_ids := {pSpot}
    metadata := []
    in_library := true
    album_type := AlbumType.album
    artist := none }

/-- A second provider album result colliding with `albumW1` on the merge
key and not in the library. -/
def albumW2 : Album :=
  { item_id := "qb-a2"
    provider := ProviderType.qobuz
    name := "Hunky Dory"
    sort_name := "hunky dory version"
    version := ""
    provider_ids := {pQobuz}
    metadata := []
    in_library := false
    album_type := AlbumType.single
    artist := none }

/-- The artist reference carried by the reference album in the match
counterexample: its sort name differs from the canonical artist's. -/
def refArtistZZ : ItemRef :=
  ⟨"sp-zz", ProviderType.spotify, "ZZ Band", "zz band"⟩

/-- The artist reference carried by the candidate provider's search
result: same sort name as `refArtistZZ`, still different from the
canonical artist's. -/
def resArtistZZ : ItemRef :=
  ⟨"qb-zz", ProviderType.qobuz, "ZZ Band", "zz band"⟩

/-- The canonical database artist of the match scenarios; note its sort
name `aa` differs from `zz band`. -/
def dbArtistAA : Artist :=
  { item_id := 1
    provider := ProviderType.database
    name := "AA"
    sort_name := "aa"
    musicbrainz_id := none
    metadata := []
    provider_ids := {pSpot}
    in_library := true }

/-- The reference album of the canonical artist, credited to
`refArtistZZ`. -/
def refAlbumGold : Album :=
  { item_id := "sp-gold"
    provider := ProviderType.spotify
    name := "Gold"
    sort_name := "gold"
    version := ""
    provider_ids := {pSpot}
    metadata := []
    in_library := true
    album_type := AlbumType.album
    artist := some refArtistZZ }

/-- The candidate provider's search result for the reference album:
equal album sort name, artist sort name equal to the reference album's
artist's but not to the canonical artist's. -/
def resAlbumGold : Album :=
  { item_id := "qb-gold"
    provider := ProviderType.qobuz
    name := "Gold"
    sort_name := "gold"
    version := ""
    provider_ids := {pQobuz}
    metadata := []
    in_library := false
    album_type := AlbumType.album
    artist := some resArtistZZ }

/-- The full provider artist fetched after a confirmed match. -/
def provArtistZZ : Artist :=
  { item_id := 0
    provider := ProviderType.qobuz
    name := "ZZ Band"
    sort_name := "zz band"
    musicbrainz_id := none
    metadata := []
    provider_ids := {pQobuz}
    in_library := false }

/-- Match environment in which the track phase finds nothing and the
album phase confirms `resAlbumGold`. -/
def envGold : MatchEnv :=
  { toptracks := []
    albums := [refAlbumGold]
    fullTrack := id
    searchTracks := fun _ => []
    searchAlbums := fun _ => [resAlbumGold]
    getProviderArtist := fun _ _ => provArtistZZ }

/-- Match environment in which every search comes back empty. -/
def envEmpty : MatchEnv :=
  { toptracks := []
    albums := []
    fullTrack := id
    searchTracks := fun _ => []
    searchAlbums := fun _ => []
    getProviderArtist := fun _ _ => provArtistZZ }

end MusicAssistant

namespace MusicAssistant

/-! ### Association list and metadata lemmas -/

theorem alookup_aupdate_self {α : Type} (acc : List (String × α)) (k : String)
    (f : α → α) : alookup (aupdate acc k f) k = (alookup acc k).map f := by
  induction acc with
  | nil => simp [alookup, aupdate]
  | cons p rest ih =>
    obtain ⟨k', v⟩ := p
    by_cases hk : k' = k <;> simp [alookup, aupdate, hk, ih]

theorem alookup_aupdate_ne {α : Type} (acc : List (String × α)) (k k' : String)
    (f : α → α) (h : k ≠ k') : alookup (aupdate acc k f) k' = alookup acc k' := by
  induction acc with
  | nil => simp [alookup, aupdate]
  | cons p rest ih =>
    obtain ⟨k0, v⟩ := p
    by_cases hk : k0 = k
    · subst hk
      simp [alookup, aupdate, h]
    · by_cases hk' : k0 = k' <;> simp [alookup, aupdate, hk, hk', Ne.symm h, ih]

theorem alookup_append_left {α : Type} (acc1 acc2 : List (String × α))
    (k : String) (v : α) (h : alookup acc1 k = some v) :
    alookup (acc1 ++ acc2) k = some v := by
  induction acc1 with
  | nil => simp [alookup] at h
  | cons p rest ih =>
    obtain ⟨k0, v0⟩ := p
    by_cases hk : k0 = k <;> simp_all [alookup]

theorem alookup_append_right {α : Type} (acc1 acc2 : List (String × α))
    (k : String) (h : alookup acc1 k = none) :
    alookup (acc1 ++ acc2) k = alookup acc2 k := by
  induction acc1 with
  | nil => simp [alookup]
  | cons p rest ih =>
    obtain ⟨k0, v0⟩ := p
    by_cases hk : k0 = k <;> simp_all [alookup]

theorem alookup_mem_map_snd {α : Type} (acc : List (String × α)) (k : String)
    (v : α) (h : alookup acc k = some v) : v ∈ acc.map Prod.snd := by
  induction acc with
  | nil => simp [alookup] at h
  | cons p rest ih =>
    obtain ⟨k0, v0⟩ := p
    by_cases hk : k0 = k <;> simp_all [alookup]

theorem Metadata.lookup_append (m1 m2 : Metadata) (k : String) :
    Metadata.lookup (m1 ++ m2) k =
      match Metadata.lookup m1 k with
      | some v => some v
      | none => Metadata.lookup m2 k := by
  induction m1 with
  | nil => simp [Metadata.lookup]
  | cons p rest ih =>
    obtain ⟨k0, v0⟩ := p
    by_cases hk : k0 = k <;> simp [Metadata.lookup, hk, ih]

/-! ### Two-element aggregation lemmas -/

theorem toptracksMerge_pair (t1 t2 : Track) (h : trackKey t1 = trackKey t2) :
    toptracksMerge [t1, t2] =
      [{ t1 with provider_ids := t1.provider_ids ∪ t2.provider_ids }] := by
  simp [toptracksMerge, mergeTracksStep, alookup, aupdate, h]

theorem albumsMerge_pair (a1 a2 : Album) (h : albumKey a1 = albumKey a2) :
    albumsMerge [a1, a2] =
      [{ a1 with provider_ids := a1.provider_ids ∪ a2.provider_ids,
                 in_library := a1.in_library || a2.in_library }] := by
  cases h1 : a1.in_library <;> cases h2 : a2.in_library <;>
    simp [albumsMerge, mergeAlbumsStep, mergeAlbumsBase, alookup, aupdate,
      h, h1, h2]

/-! ### Library-flag monotonicity lemmas for the albums merge loop -/

theorem mergeAlbumsBase_keeps (acc : List (String × Album)) (album : Album)
    (k : String) (u : Album) (h : alookup acc k = some u) :
    ∃ u', alookup (mergeAlbumsBase acc album) k = some u' ∧
      u'.in_library = u.in_library := by
  unfold mergeAlbumsBase
  by_cases hk : albumKey album = k
  · subst hk
    rw [h]
    refine ⟨{ u with provider_ids := u.provider_ids ∪ album.provider_ids },
      ?_, rfl⟩
    rw [alookup_aupdate_self, h]
    rfl
  · cases hc : alookup acc (albumKey album) with
    | some v =>
      exact ⟨u, (alookup_aupdate_ne _ _ _ _ hk).trans h, rfl⟩
    | none =>
      exact ⟨u, alookup_append_left _ _ _ _ h, rfl⟩

theorem mergeAlbumsStep_preserves (acc : List (String × Album)) (album : Album)
    (k : String) (u : Album) (h : alookup acc k = some u)
    (hlib : u.in_library = true) :
    ∃ u', alookup (mergeAlbumsStep acc album) k = some u' ∧
      u'.in_library = true := by
  obtain ⟨u', hu', hl'⟩ := mergeAlbumsBase_keeps acc album k u h
  unfold mergeAlbumsStep
  cases hl : album.in_library with
  | false =>
    exact ⟨u', by simpa [hl] using hu', hl'.trans hlib⟩
  | true =>
    simp only [hl, if_true]
    by_cases hk : albumKey album = k
    · subst hk
      refine ⟨{ u' with in_library := true }, ?_, rfl⟩
      rw [alookup_aupdate_self, hu']
      rfl
    · exact ⟨u', (alookup_aupdate_ne _ _ _ _ hk).trans hu', hl'.trans hlib⟩

theorem mergeAlbumsStep_establishes (acc : List (String × Album))
    (album : Album) (hlib : album.in_library = true) :
    ∃ u', alookup (mergeAlbumsStep acc album) (albumKey album) = some u' ∧
      u'.in_library = true := by
  have hbase : ∃ v, alookup (mergeAlbumsBase acc album) (albumKey album) =
      some v := by
    unfold mergeAlbumsBase
    cases hc : alookup acc (albumKey album) with
    | some v =>
      refine ⟨{ v with provider_ids := v.provider_ids ∪ album.provider_ids },
        ?_⟩
      rw [alookup_aupdate_self, hc]
      rfl
    | none =>
      refine ⟨album, ?_⟩
      rw [alookup_append_right _ _ _ hc]
      simp [alookup]
  obtain ⟨v, hv⟩ := hbase
  unfold mergeAlbumsStep
  simp only [hlib, if_true]
  refine ⟨{ v with in_library := true }, ?_, rfl⟩
  rw [alookup_aupdate_self, hv]
  rfl

theorem foldl_mergeAlbums_preserves (l : List Album)
    (acc : List (String × Album)) (k : String)
    (h : ∃ u, alookup acc k = some u ∧ u.in_library = true) :
    ∃ u, alookup (l.foldl mergeAlbumsStep acc) k = some u ∧
      u.in_library = true := by
  induction l generalizing acc with
  | nil => exact h
  | cons b rest ih =>
    obtain ⟨u, hu, hl⟩ := h
    exact ih _ (mergeAlbumsStep_preserves acc b k u hu hl)

theorem foldl_mergeAlbums_establishes (l : List Album) (a : Album)
    (hlib : a.in_library = true) :
    ∀ acc : List (String × Album), a ∈ l →
      ∃ u, alookup (l.foldl mergeAlbumsStep acc) (albumKey a) = some u ∧
        u.in_library = true := by
  induction l with
  | nil =>
    intro acc hmem
    cases hmem
  | cons b rest ih =>
    intro acc hmem
    rw [List.foldl_cons]
    rcases List.mem_cons.mp hmem with hb | hr
    · subst hb
      exact foldl_mergeAlbums_preserves rest _ _
        (mergeAlbumsStep_establishes acc a hlib)
    · exact ih _ hr

/-! ### Claims about the aggregation loops -/

/-- C3: two per-provider results of one aggregation that collide on the
merge key produce exactly one output entry whose provider mappings are
the union of both results' provider mappings, in either input order, for
the track loop and for the album loop alike. -/
theorem aggregate_collision_unions_provenance (t1 t2 : Track) (a1 a2 : Album)
    (ht : trackKey t1 = trackKey t2) (ha : albumKey a1 = albumKey a2) :
    (toptracksMerge [t1, t2]).length = 1 ∧
    (toptracksMerge [t2, t1]).length = 1 ∧
    (toptracksMerge [t1, t2]).map Track.provider_ids =
      [t1.provider_ids ∪ t2.provider_ids] ∧
    (toptracksMerge [t2, t1]).map Track.provider_ids =
      [t1.provider_ids ∪ t2.provider_ids] ∧
    (albumsMerge [a1, a2]).length = 1 ∧
    (albumsMerge [a2, a1]).length = 1 ∧
    (albumsMerge [a1, a2]).map Album.provider_ids =
      [a1.provider_ids ∪ a2.provider_ids] ∧
    (albumsMerge [a2, a1]).map Album.provider_ids =
      [a1.provider_ids ∪ a2.provider_ids] := by
  rw [toptracksMerge_pair t1 t2 ht, toptracksMerge_pair t2 t1 ht.symm,
    albumsMerge_pair a1 a2 ha, albumsMerge_pair a2 a1 ha.symm]
  simp [Finset.union_comm]

/-- Witness for C3: `trackW1`/`trackW2` and `albumW1`/`albumW2` collide
on their merge keys. -/
theorem aggregate_collision_unions_provenance_checked :
    (toptracksMerge [trackW1, trackW2]).length = 1 ∧
    (toptracksMerge [trackW2, trackW1]).length = 1 ∧
    (toptracksMerge [trackW1, trackW2]).map Track.provider_ids =
      [trackW1.provider_ids ∪ trackW2.provider_ids] ∧
    (toptracksMerge [trackW2, trackW1]).map Track.provider_ids =
      [trackW1.provider_ids ∪ trackW2.provider_ids] ∧
    (albumsMerge [albumW1, albumW2]).length = 1 ∧
    (albumsMerge [albumW2, albumW1]).length = 1 ∧
    (albumsMerge [albumW1, albumW2]).map Album.provider_ids =
      [albumW1.provider_ids ∪ albumW2.provider_ids] ∧
    (albumsMerge [albumW2, albumW1]).map Album.provider_ids =
      [albumW1.provider_ids ∪ albumW2.provider_ids] :=
  aggregate_collision_unions_provenance trackW1 trackW2 albumW1 albumW2 rfl rfl

/-- C4 counterexample: `trackW1` and `trackW3` agree on sort name and
version but differ in display name, and the merge loop keeps them as two
separate entries — the merge key is built from the display name, not the
sort name. -/
theorem merge_key_uses_display_name_cex :
    trackW1.sort_name = trackW3.sort_name ∧
    trackW1.version = trackW3.version ∧
    trackW1.name ≠ trackW3.name ∧
    (toptracksMerge [trackW1, trackW3]).length = 2 := by
  refine ⟨rfl, rfl, by decide, by decide⟩

/-- C4 corrected: the merge key is `"." ++ name ++ "." ++ version` built
from the display name: two results with equal display names and versions
are merged into a single entry even when their sort names differ. -/
theorem merge_key_is_display_name_version (t1 t2 : Track) (a1 a2 : Album)
    (htn : t1.name = t2.name) (htv : t1.version = t2.version)
    (han : a1.name = a2.name) (hav : a1.version = a2.version) :
    trackKey t1 = "." ++ t1.name ++ "." ++ t1.version ∧
    albumKey a1 = "." ++ a1.name ++ "." ++ a1.version ∧
    (toptracksMerge [t1, t2]).length = 1 ∧
    (albumsMerge [a1, a2]).length = 1 := by
  have ht : trackKey t1 = trackKey t2 := by simp [trackKey, htn, htv]
  have ha : albumKey a1 = albumKey a2 := by simp [albumKey, han, hav]
  refine ⟨rfl, rfl, ?_, ?_⟩
  · simp [toptracksMerge_pair t1 t2 ht]
  · simp [albumsMerge_pair a1 a2 ha]

/-- Witness for the corrected C4: `trackW1`/`trackW2` and
`albumW1`/`albumW2` share display names and versions while their sort
names differ, and each pair merges to one entry. -/
theorem merge_key_is_display_name_version_checked :
    trackKey trackW1 = "." ++ trackW1.name ++ "." ++ trackW1.version ∧
    albumKey albumW1 = "." ++ albumW1.name ++ "." ++ albumW1.version ∧
    (toptracksMerge [trackW1, trackW2]).length = 1 ∧
    (albumsMerge [albumW1, albumW2]).length = 1 :=
  merge_key_is_display_name_version trackW1 trackW2 albumW1 albumW2
    rfl rfl rfl rfl

/-- C8: library membership is sticky under the albums merge loop — for
any input list (hence regardless of the order of colliding results), if
some result is in the library then the output entry at that result's
merge key exists, is in the library, and is one of the aggregated
albums. -/
theorem albums_in_library_sticky (l : List Album) (a : Album)
    (hmem : a ∈ l) (hlib : a.in_library = true) :
    ∃ u, alookup (l.foldl mergeAlbumsStep []) (albumKey a) = some u ∧
      u.in_library = true ∧ u ∈ albumsMerge l := by
  obtain ⟨u, hu, hl⟩ := foldl_mergeAlbums_establishes l a hlib [] hmem
  exact ⟨u, hu, hl, alookup_mem_map_snd _ _ _ hu⟩

/-- Witness for C8: `albumW1` is in the library and collides with the
earlier `albumW2`, and the merged entry at their key is in the library. -/
theorem albums_in_library_sticky_checked :
    (alookup ([albumW2, albumW1].foldl mergeAlbumsStep [])
      (albumKey albumW1)).map Album.in_library = some true := by
  obtain ⟨u, hu, hl, _⟩ :=
    albums_in_library_sticky [albumW2, albumW1] albumW1 (by simp) rfl
  rw [hu]
  simp [hl]

/-- C10: on a merge-key collision the first-seen result's fields win —
the output entry is the first result with only its provider mappings
unioned with the duplicate's (and, for albums, its library flag OR-ed
with the duplicate's); every other field of the duplicate is discarded. -/
theorem aggregate_first_seen_wins (t1 t2 : Track) (a1 a2 : Album)
    (ht : trackKey t1 = trackKey t2) (ha : albumKey a1 = albumKey a2) :
    toptracksMerge [t1, t2] =
      [{ t1 with provider_ids := t1.provider_ids ∪ t2.provider_ids }] ∧
    albumsMerge [a1, a2] =
      [{ a1 with provider_ids := a1.provider_ids ∪ a2.provider_ids,
                 in_library := a1.in_library || a2.in_library }] :=
  ⟨toptracksMerge_pair t1 t2 ht, albumsMerge_pair a1 a2 ha⟩

/-- Witness for C10 on the colliding pairs `trackW1`/`trackW2` and
`albumW1`/`albumW2`. -/
theorem aggregate_first_seen_wins_checked :
    toptracksMerge [trackW1, trackW2] =
      [{ trackW1 with
          provider_ids := trackW1.provider_ids ∪ trackW2.provider_ids }] ∧
    albumsMerge [albumW1, albumW2] =
      [{ albumW1 with
          provider_ids := albumW1.provider_ids ∪ albumW2.provider_ids,
          in_library := albumW1.in_library || albumW2.in_library }] :=
  aggregate_first_seen_wins trackW1 trackW2 albumW1 albumW2 rfl rfl

/-! ### Claims about `update_db_item` -/

/-- C1: `update_db_item` with `overwrite=true` replaces the stored
provider mappings exactly with the incoming item's; with
`overwrite=false` it stores the set union of the existing record's and
the incoming item's provider mappings and keeps the existing name and
sort name. -/
theorem update_db_item_overwrite_vs_merge (db : DB) (id : Nat)
    (item cur : Artist) (h : get_db_item db id = some cur) :
    update_db_item db id item true =
      some (db_update db id (updatedArtist cur item true),
        updatedArtist cur item true) ∧
    update_db_item db id item false =
      some (db_update db id (updatedArtist cur item false),
        updatedArtist cur item false) ∧
    (updatedArtist cur item true).provider_ids = item.provider_ids ∧
    (updatedArtist cur item false).provider_ids =
      cur.provider_ids ∪ item.provider_ids ∧
    (updatedArtist cur item false).name = cur.name ∧
    (updatedArtist cur item false).sort_name = cur.sort_name := by
  refine ⟨?_, ?_, ?_, ?_, ?_, ?_⟩ <;> simp [update_db_item, h, updatedArtist]

/-- Witness for C1: updating the stored `artistA` with the incoming
`artistB` in both modes. -/
theorem update_db_item_overwrite_vs_merge_checked :
    update_db_item [artistA] 1 artistB true =
      some (db_update [artistA] 1 (updatedArtist artistA artistB true),
        updatedArtist artistA artistB true) ∧
    update_db_item [artistA] 1 artistB false =
      some (db_update [artistA] 1 (updatedArtist artistA artistB false),
        updatedArtist artistA artistB false) ∧
    (updatedArtist artistA artistB true).provider_ids = artistB.provider_ids ∧
    (updatedArtist artistA artistB false).provider_ids =
      artistA.provider_ids ∪ artistB.provider_ids ∧
    (updatedArtist artistA artistB false).name = artistA.name ∧
    (updatedArtist artistA artistB false).sort_name = artistA.sort_name :=
  update_db_item_overwrite_vs_merge [artistA] 1 artistB artistA rfl

/-- C5 counterexample: the claim says that in a merge update the existing
musicbrainz id is retained when present, but on the stored `artistA`
(musicbrainz id `mb-a`) and the incoming `artistB` (musicbrainz id
`mb-b`) the code stores the incoming `mb-b`. -/
theorem merge_keeps_existing_mbid_cex :
    get_db_item [artistA] 1 = some artistA ∧
    artistA.musicbrainz_id = some "mb-a" ∧
    artistB.musicbrainz_id = some "mb-b" ∧
    (update_db_item [artistA] 1 artistB false).map
      (fun p => p.2.musicbrainz_id) = some (some "mb-b") := by
  refine ⟨rfl, rfl, rfl, rfl⟩

/-- C5 amended: in a merge update the stored musicbrainz id takes the
incoming item's value whenever the incoming value is present (truthy);
the existing record's value is retained only when the incoming one is
absent or empty. -/
theorem merge_mbid_incoming_precedence (db : DB) (id : Nat)
    (item cur : Artist) (h : get_db_item db id = some cur) :
    (mbTruthy item.musicbrainz_id = true →
      (update_db_item db id item false).map (fun p => p.2.musicbrainz_id) =
        some item.musicbrainz_id) ∧
    (mbTruthy item.musicbrainz_id = false →
      (update_db_item db id item false).map (fun p => p.2.musicbrainz_id) =
        some cur.musicbrainz_id) := by
  constructor <;> intro hm <;>
    simp [update_db_item, h, updatedArtist, pyOrStr, hm]

/-- Witness for the amended C5: the incoming `artistB` carries a truthy
musicbrainz id, so its value is stored. -/
theorem merge_mbid_incoming_precedence_checked :
    (update_db_item [artistA] 1 artistB false).map
      (fun p => p.2.musicbrainz_id) = some artistB.musicbrainz_id :=
  (merge_mbid_incoming_precedence [artistA] 1 artistB artistA rfl).1 rfl

/-- C6: in a merge update the stored metadata is the key-by-key merge of
the existing record's metadata with the incoming item's: on every key the
incoming value wins when present, and otherwise the existing value is
preserved. -/
theorem merge_metadata_keywise (db : DB) (id : Nat) (item cur : Artist)
    (k : String) (h : get_db_item db id = some cur) :
    update_db_item db id item false =
      some (db_update db id (updatedArtist cur item false),
        updatedArtist cur item false) ∧
    Metadata.lookup (updatedArtist cur item false).metadata k =
      match Metadata.lookup item.metadata k with
      | some v => some v
      | none => Metadata.lookup cur.metadata k := by
  refine ⟨by simp [update_db_item, h], ?_⟩
  simp only [updatedArtist, Metadata.update]
  exact Metadata.lookup_append item.metadata cur.metadata k

/-- Witness for C6: merging `artistB`'s metadata into `artistA`'s — the
shared key takes the incoming value. -/
theorem merge_metadata_keywise_checked :
    update_db_item [artistA] 1 artistB false =
      some (db_update [artistA] 1 (updatedArtist artistA artistB false),
        updatedArtist artistA artistB false) ∧
    Metadata.lookup (updatedArtist artistA artistB false).metadata "genre" =
      match Metadata.lookup artistB.metadata "genre" with
      | some v => some v
      | none => Metadata.lookup artistA.metadata "genre" :=
  merge_metadata_keywise [artistA] 1 artistB artistA "genre" rfl

/-! ### Claim about `add_db_item` -/

/-- C2: adding an item merges (with `overwrite=false`) into the record
found by musicbrainz id when the incoming id is truthy and a row carries
it — with no condition on the sort names; failing that, into the first
row with an exactly equal sort name; and only when neither lookup hits is
a new row inserted and the creation event signalled. -/
theorem add_db_item_lookup_or_insert (db : DB) (item c : Artist) (n : Nat)
    (hid : get_db_item db c.item_id = some c) :
    ((mbTruthy item.musicbrainz_id = true ∧
        db.find? (fun r => r.musicbrainz_id == item.musicbrainz_id) = some c) ∨
      ((mbTruthy item.musicbrainz_id = false ∨
          db.find? (fun r => r.musicbrainz_id == item.musicbrainz_id) = none) ∧
        (db.filter (fun r => r.sort_name == item.sort_name)).find?
          (fun r => r.sort_name == item.sort_name) = some c) →
      add_db_item db item false n =
        ⟨db_update db c.item_id (updatedArtist c item false),
          updatedArtist c item false, false⟩) ∧
    (find_cur_item db item = none →
      add_db_item db item false n =
        ⟨db ++ [{ item with item_id := n }],
          { item with item_id := n }, true⟩) := by
  constructor
  · intro hcase
    have hfind : find_cur_item db item = some c := by
      unfold find_cur_item
      rcases hcase with ⟨hmb, hf⟩ | ⟨hnone, hsort⟩
      · simp [hmb, hf]
      · rcases hnone with hmb | hf
        · simp [hmb, hsort]
        · cases hmb : mbTruthy item.musicbrainz_id <;> simp [hmb, hf, hsort]
    unfold add_db_item
    rw [hfind]
    simp [update_db_item, hid]
  · intro h
    unfold add_db_item
    rw [h]

/-- Witness for C2: the incoming `artistC` shares `artistA`'s musicbrainz
id while its sort name differs, and the add merges into `artistA`. -/
theorem add_db_item_lookup_or_insert_checked :
    artistC.sort_name ≠ artistA.sort_name ∧
    add_db_item [artistA] artistC false 5 =
      ⟨db_update [artistA] artistA.item_id (updatedArtist artistA artistC false),
        updatedArtist artistA artistC false, false⟩ :=
  ⟨by decide,
    (add_db_item_lookup_or_insert [artistA] artistC artistA 5 rfl).1
      (Or.inl ⟨rfl, rfl⟩)⟩

/-! ### Claims about `_match` -/

/-- C7 counterexample: the claim requires a confirmed album-phase match
to have the search result's artist's sort name equal to the canonical
item's sort name, but in `envGold` the result's artist's sort name
(`zz band`) differs from the canonical `dbArtistAA`'s (`aa`) — it equals
the reference album's artist's sort name instead — and the code still
confirms the match. -/
theorem album_phase_canonical_sortname_cex :
    resAlbumGold.artist = some resArtistZZ ∧
    resArtistZZ.sort_name ≠ dbArtistAA.sort_name ∧
    resAlbumGold.sort_name = refAlbumGold.sort_name ∧
    (matchArtist envGold [dbArtistAA] dbArtistAA).1 = true := by
  refine ⟨rfl, by decide, rfl, rfl⟩

/-- C7 corrected: an album-phase search result confirms a match only when
it has a non-null artist, its sort name equals the reference album's sort
name, and its artist's sort name equals the reference album's artist's
sort name; on the first confirmation the full provider artist is merged
additively into the canonical record and success is reported. -/
theorem album_phase_confirms_on_ref_album_artist (env : MatchEnv) (db : DB)
    (a : Artist) (ref res : Album) (r x found : ItemRef)
    (h1 : res.artist = some r) (h2 : ref.artist = some x)
    (ht : trackPhaseFind env a = none)
    (hf : albumPhaseFind env a = some found) :
    (albumResultCheck ref res = some r ↔
      res.sort_name = ref.sort_name ∧ r.sort_name = x.sort_name) ∧
    (∀ res0 : Album, res0.artist = none → albumResultCheck ref res0 = none) ∧
    matchArtist env db a =
      (true, persistMerge db a.item_id
        (env.getProviderArtist found.item_id found.provider)) := by
  refine ⟨?_, ?_, ?_⟩
  · unfold albumResultCheck
    rw [h1, h2]
    by_cases hs : res.sort_name = ref.sort_name <;>
      by_cases hr : r.sort_name = x.sort_name <;>
      simp [hs, hr]
  · intro res0 h0
    unfold albumResultCheck
    rw [h0]
  · unfold matchArtist
    rw [ht, hf]

/-- Witness for the corrected C7 in the concrete `envGold` scenario. -/
theorem album_phase_confirms_on_ref_album_artist_checked :
    (albumResultCheck refAlbumGold resAlbumGold = some resArtistZZ ↔
      resAlbumGold.sort_name = refAlbumGold.sort_name ∧
      resArtistZZ.sort_name = refArtistZZ.sort_name) ∧
    matchArtist envGold [dbArtistAA] dbArtistAA =
      (true, persistMerge [dbArtistAA] dbArtistAA.item_id
        (envGold.getProviderArtist resArtistZZ.item_id
          resArtistZZ.provider)) :=
  ⟨(album_phase_confirms_on_ref_album_artist envGold [dbArtistAA] dbArtistAA
      refAlbumGold resAlbumGold resArtistZZ refArtistZZ resArtistZZ
      rfl rfl rfl rfl).1,
    (album_phase_confirms_on_ref_album_artist envGold [dbArtistAA] dbArtistAA
      refAlbumGold resAlbumGold resArtistZZ refArtistZZ resArtistZZ
      rfl rfl rfl rfl).2.2⟩

theorem matchArtist_track_some (env : MatchEnv) (db : DB) (a : Artist)
    (r : ItemRef) (h : trackPhaseFind env a = some r) :
    matchArtist env db a =
      (true, persistMerge db a.item_id
        (env.getProviderArtist r.item_id r.provider)) := by
  unfold matchArtist
  rw [h]

theorem matchArtist_album_some (env : MatchEnv) (db : DB) (a : Artist)
    (r : ItemRef) (h1 : trackPhaseFind env a = none)
    (h2 : albumPhaseFind env a = some r) :
    matchArtist env db a =
      (true, persistMerge db a.item_id
        (env.getProviderArtist r.item_id r.provider)) := by
  unfold matchArtist
  rw [h1, h2]

theorem matchArtist_none (env : MatchEnv) (db : DB) (a : Artist)
    (h1 : trackPhaseFind env a = none) (h2 : albumPhaseFind env a = none) :
    matchArtist env db a = (false, db) := by
  unfold matchArtist
  rw [h1, h2]

/-- C9: when neither phase of `_match` confirms a match, the call returns
failure and the database is exactly the one passed in — no update is
persisted and no provider mapping is added. -/
theorem match_failure_frame (env : MatchEnv) (db : DB) (a : Artist)
    (h : (matchArtist env db a).1 = false) :
    matchArtist env db a = (false, db) := by
  cases htp : trackPhaseFind env a with
  | some r =>
    rw [matchArtist_track_some env db a r htp] at h
    exact absurd h (by simp)
  | none =>
    cases hap : albumPhaseFind env a with
    | some r =>
      rw [matchArtist_album_some env db a r htp hap] at h
      exact absurd h (by simp)
    | none => exact matchArtist_none env db a htp hap

/-- Witness for C9: with every collaborator returning nothing the match
fails and the table is returned untouched. -/
theorem match_failure_frame_checked :
    matchArtist envEmpty [dbArtistAA] dbArtistAA = (false, [dbArtistAA]) :=
  match_failure_frame envEmpty [dbArtistAA] dbArtistAA rfl

end MusicAssistant
